import Mathlib

/-!
Shallow embedding of the ESPN scoreboard provider (providers/ESPN.js) of
MMM-MyScoreboard, together with proofs about its request construction,
game filtering, sorting, status mapping and team-field normalization.

Modelling conventions:
* JavaScript strings are Lean `String`s; the raw feed's numeric fields that
  the code hands to the `moment` library are modelled as `Int` timestamps
  (the code only compares them and formats them).
* The ambient local-timezone time formatter
  `moment(date).tz(localTZ).format("h:mm a")` is an external collaborator;
  it is threaded through as an explicit parameter `fmtTime : Int → String`.
* The code mutates its argument `data` in place (the in-place `sort` when no
  team filter is given, and the SDSU abbreviation rewrite which writes into
  the competitor record).  `formatScores` therefore returns both the output
  list and the post-call state of `data.events`.
-/

/-- Character-list prefix test, used to model JavaScript `String.indexOf`. -/
def startsWithChars : List Char → List Char → Bool
  | [], _ => true
  | _ :: _, [] => false
  | p :: ps, c :: cs => p == c && startsWithChars ps cs

/-- Substring occurrence test over character lists. -/
def containsChars : List Char → List Char → Bool
  | [], pat => pat.isEmpty
  | c :: cs, pat => startsWithChars pat (c :: cs) || containsChars cs pat

/-- Model of the JavaScript test `s.indexOf(pat) != -1`: does `pat` occur in `s`. -/
def strContains (s pat : String) : Bool :=
  containsChars s.data pat.data

/-- Model of the JavaScript builtin `parseInt` on decimal inputs: skip leading
spaces, read an optional sign and then a non-empty run of decimal digits;
anything else is NaN, modelled as `none`. -/
def jsParseInt (s : String) : Option Int :=
  let cs := s.data.dropWhile (fun c => c == ' ')
  let signAndRest : Int × List Char :=
    match cs with
    | '-' :: r => (-1, r)
    | '+' :: r => (1, r)
    | r => (1, r)
  let ds := signAndRest.2.takeWhile Char.isDigit
  if ds.isEmpty then none
  else some (signAndRest.1 * ((ds.foldl (fun n c => n * 10 + (c.toNat - 48)) 0 : Nat) : Int))

/-- The `team` sub-record of a competitor in the raw feed. -/
structure Team where
  abbreviation : String
  location : String
  shortDisplayName : String
  deriving DecidableEq, Repr

/-- One entry of `game.competitions[0].competitors`. -/
structure Competitor where
  team : Team
  homeAway : String
  score : String
  deriving DecidableEq, Repr

/-- The `status.type` sub-record of a raw game. -/
structure StatusType where
  id : String
  deriving DecidableEq, Repr

/-- The `status` sub-record of a raw game. -/
structure GameStatus where
  type : StatusType
  period : Nat
  displayClock : String
  deriving DecidableEq, Repr

/-- The `competitions[0]` sub-record of a raw game.  The code only ever reads
`competitors[0]` and `competitors[1]`, so the two entries are modelled as two
fields. -/
structure Competition where
  date : Int
  competitor0 : Competitor
  competitor1 : Competitor
  deriving DecidableEq, Repr

/-- One entry of `data.events`.  The code only ever reads `competitions[0]`,
modelled as the single field `competition`. -/
structure Game where
  competition : Competition
  status : GameStatus
  deriving DecidableEq, Repr

/-- The decoded response body: the code reads `data.events`. -/
structure ScoreData where
  events : List Game
  deriving DecidableEq, Repr

/-- The record pushed onto `formattedGamesList`. -/
structure FormattedGame where
  classes : List String
  gameMode : Nat
  hTeam : String
  vTeam : String
  hTeamLong : String
  vTeamLong : String
  hScore : Option Int
  vScore : Option Int
  status : List String
  usePngLogos : Bool
  deriving DecidableEq, Repr

/-- Generic game state SCHEDULED, encoded as 0 in the source. -/
def SCHEDULED : Nat := 0

/-- Generic game state LIVE, encoded as 1 in the source. -/
def LIVE : Nat := 1

/-- Generic game state FINAL, encoded as 2 in the source. -/
def FINAL : Nat := 2

/-- Embedding of getLeaguePath: the switch over supported leagues; the default
branch returns null, modelled as `none`. -/
def getLeaguePath (league : String) : Option String :=
  if league == "NCAAF" then some "football/college-football"
  else if league == "NBA" then some "basketball/nba"
  else if league == "NCAAM" then some "basketball/mens-college-basketball"
  else none

/-- JavaScript string concatenation renders the value null as the text "null". -/
def jsStringOfNullable : Option String → String
  | some s => s
  | none => "null"

/-- Embedding of the URL built in getScores.  The date argument stands for the
already formatted string `moment(gameDate).format("YYYYMMDD")`. -/
def getScoresUrl (league dateStr : String) : String :=
  "http://site.api.espn.com/apis/site/v2/sports/" ++
    jsStringOfNullable (getLeaguePath league) ++
    "/scoreboard?dates=" ++ dateStr ++ "&limit=200"

/-- Embedding of getOrdinal: English ordinal with uppercase superscript markup. -/
def getOrdinal (p : Nat) : String :=
  let mod10 := p % 10
  let mod100 := p % 100
  if mod10 == 1 && mod100 != 11 then toString p ++ "<sup>ST</sup>"
  else if mod10 == 2 && mod100 != 12 then toString p ++ "<sup>ND</sup>"
  else if mod10 == 3 && mod100 != 13 then toString p ++ "<sup>RD</sup>"
  else toString p ++ "<sup>TH</sup>"

/-- Embedding of getPeriod: overtime labels for the three supported leagues,
ordinal labels otherwise. -/
def getPeriod (league : String) (p : Nat) : String :=
  if league == "NCAAF" || league == "NCAAM" || league == "NBA" then
    if p == 5 then "OT"
    else if 5 < p then toString (p - 4) ++ "OT"
    else getOrdinal p
  else getOrdinal p

/-- Embedding of getFinalOT: overtime suffix of the "Final" status text. -/
def getFinalOT (league : String) (p : Nat) : String :=
  if league == "NCAAF" || league == "NCAAM" || league == "NBA" then
    if p == 5 then " (OT)"
    else if 5 < p then " (" ++ toString (p - 4) ++ "OT)"
    else ""
  else ""

/-- Embedding of the switch over game.status.type.id in formatScores.  Returns
(gameState, status, classes).  In the delayed cases "7" and "17" the source
executes the statement classes.push["delay"], which indexes into the push
function instead of calling it, so nothing is appended and classes stays
empty. -/
def statusFor (fmtTime : Int → String) (league : String) (g : Game) :
    Nat × List String × List String :=
  match g.status.type.id with
  | "0" => (0, ["TBD"], [])
  | "1" => (0, [fmtTime g.competition.date], [])
  | "2" | "21" | "24" =>
    (1, [g.status.displayClock, getPeriod league g.status.period], [])
  | "3" => (2, ["Final" ++ getFinalOT league g.status.period], [])
  | "4" | "9" | "10" => (0, ["Forfeit"], [])
  | "5" => (0, ["Cancelled"], [])
  | "6" => (0, ["Postponed"], [])
  | "7" | "17" => (1, ["Delay"], [])
  | "8" => (0, ["Suspended"], [])
  | "22" => (1, ["END", getPeriod league g.status.period], [])
  | "23" => (1, ["HALFTIME"], [])
  | _ => (0, [fmtTime g.competition.date], [])

/-- The (home, visitor) pair of a game: competitors[0] and competitors[1],
swapped when competitors[0] carries the homeAway flag "away". -/
def homeVisitor (g : Game) : Competitor × Competitor :=
  if g.competition.competitor0.homeAway == "away" then
    (g.competition.competitor1, g.competition.competitor0)
  else
    (g.competition.competitor0, g.competition.competitor1)

/-- The condition of the SDSU abbreviation override for one competitor. -/
def sdsuMatch (league : String) (c : Competitor) : Bool :=
  league == "NCAAF" && c.team.abbreviation == "SDSU" &&
    strContains c.team.location "South Dakota State"

/-- Embedding of the SDSU override as written in the source: an if / else-if
chain that first tests the home side and tests the visiting side only when
the home side did not match. -/
def applyOverrides (league : String) (hv : Competitor × Competitor) :
    Competitor × Competitor :=
  if sdsuMatch league hv.1 then
    ({ hv.1 with team := { hv.1.team with abbreviation := "SDSU " } }, hv.2)
  else if sdsuMatch league hv.2 then
    (hv.1, { hv.2 with team := { hv.2.team with abbreviation := "SDSU " } })
  else hv

/-- The record pushed for one game in the forEach body of formatScores. -/
def formatGame (fmtTime : Int → String) (league : String) (g : Game) :
    FormattedGame :=
  let st := statusFor fmtTime league g
  let hv := applyOverrides league (homeVisitor g)
  { classes := st.2.2
    gameMode := st.1
    hTeam := hv.1.team.abbreviation
    vTeam := hv.2.team.abbreviation
    hTeamLong := (if league == "NCAAF" || league == "NCAAM" then
        hv.1.team.abbreviation ++ " " else "") ++ hv.1.team.shortDisplayName
    vTeamLong := (if league == "NCAAF" || league == "NCAAM" then
        hv.2.team.abbreviation ++ " " else "") ++ hv.2.team.shortDisplayName
    hScore := jsParseInt hv.1.score
    vScore := jsParseInt hv.2.score
    status := st.2.1
    usePngLogos := true }

/-- The in-place effect of the forEach body on one raw game record: the SDSU
override writes the rewritten abbreviation back into the competitor record
(hTeamData and vTeamData alias the entries of game.competitions[0]). -/
def mutateGame (league : String) (g : Game) : Game :=
  let hv := applyOverrides league (homeVisitor g)
  if g.competition.competitor0.homeAway == "away" then
    { g with competition :=
        { g.competition with competitor0 := hv.2, competitor1 := hv.1 } }
  else
    { g with competition :=
        { g.competition with competitor0 := hv.1, competitor1 := hv.2 } }

/-- The filter predicate of formatScores: either competitor's abbreviation
occurs in the teams array (indexOf != -1). -/
def passesFilter (teams : List String) (g : Game) : Bool :=
  teams.contains g.competition.competitor0.team.abbreviation ||
    teams.contains g.competition.competitor1.team.abbreviation

/-- The filtering stage of formatScores: filter to the teams list when one is
given, otherwise take data.events unchanged. -/
def filteredGames (data : ScoreData) (teams : Option (List String)) : List Game :=
  match teams with
  | some ts => data.events.filter (passesFilter ts)
  | none => data.events

/-- The away-team abbreviation as read by the sort comparator. -/
def awayAbbr (g : Game) : String :=
  if g.competition.competitor0.homeAway == "away" then
    g.competition.competitor0.team.abbreviation
  else
    g.competition.competitor1.team.abbreviation

/-- Embedding of the sort comparator of formatScores: start time first, then
the away-team abbreviations compared as strings. -/
def cmpGames (a b : Game) : Int :=
  if a.competition.date < b.competition.date then -1
  else if b.competition.date < a.competition.date then 1
  else if awayAbbr a < awayAbbr b then -1
  else if awayAbbr b < awayAbbr a then 1
  else 0

/-- The comparator as a boolean order, as used by a stable comparison sort. -/
def gamesLe (a b : Game) : Bool :=
  cmpGames a b ≤ 0

/-- The sorting stage of formatScores: a stable sort of the filtered games by
the comparator (JavaScript Array.prototype.sort is required to be stable). -/
def sortedGames (data : ScoreData) (teams : Option (List String)) : List Game :=
  (filteredGames data teams).mergeSort gamesLe

/-- Embedding of formatScores.  Besides the returned list the function has an
in-place effect on data: with a team filter, filter produces a fresh array and
only the per-game mutation of surviving games is visible in data.events; with
no filter, data.events itself is sorted in place and then mutated per game. -/
def formatScores (fmtTime : Int → String) (league : String) (data : ScoreData)
    (teams : Option (List String)) : List FormattedGame × ScoreData :=
  let sorted := sortedGames data teams
  let out := sorted.map (formatGame fmtTime league)
  let events' := match teams with
    | some ts => data.events.map (fun g =>
        if passesFilter ts g then mutateGame league g else g)
    | none => sorted.map (mutateGame league)
  (out, { events := events' })

/-- The output list of formatScores. -/
def formatGames (fmtTime : Int → String) (league : String) (data : ScoreData)
    (teams : Option (List String)) : List FormattedGame :=
  (formatScores fmtTime league data teams).1

/-- English ordinal suffix rule as the specification states it, in lowercase
text form; the specification allows the code's markup and letter case. -/
def englishOrdinalSuffix (n : Nat) : String :=
  if n % 10 == 1 && n % 100 != 11 then "st"
  else if n % 10 == 2 && n % 100 != 12 then "nd"
  else if n % 10 == 3 && n % 100 != 13 then "rd"
  else "th"

/-- Uppercase a string character by character. -/
def upperString (s : String) : String :=
  String.mk (s.data.map Char.toUpper)

/-- Concrete final-state NBA game at period 6 used to witness C8. -/
def finalNbaGame : Game :=
  { competition :=
      { date := 0
        competitor0 :=
          { team := { abbreviation := "BOS", location := "Boston",
                      shortDisplayName := "Celtics" }
            homeAway := "home", score := "120" }
        competitor1 :=
          { team := { abbreviation := "LAL", location := "Los Angeles",
                      shortDisplayName := "Lakers" }
            homeAway := "away", score := "118" } }
    status := { type := { id := "3" }, period := 6, displayClock := "0:00" } }

/-- Concrete game with an unrecognized status id used to witness C10. -/
def unknownStatusGame : Game :=
  { competition :=
      { date := 17
        competitor0 :=
          { team := { abbreviation := "NYK", location := "New York",
                      shortDisplayName := "Knicks" }
            homeAway := "home", score := "" }
        competitor1 :=
          { team := { abbreviation := "BKN", location := "Brooklyn",
                      shortDisplayName := "Nets" }
            homeAway := "away", score := "" } }
    status := { type := { id := "99" }, period := 0, displayClock := "" } }

/-- Concrete NCAAF game in which both competitors satisfy the SDSU override
condition; used to exhibit the else-if priority of the override. -/
def sdsuBothGame : Game :=
  { competition :=
      { date := 0
        competitor0 :=
          { team := { abbreviation := "SDSU", location := "South Dakota State",
                      shortDisplayName := "Jackrabbits" }
            homeAway := "home", score := "21" }
        competitor1 :=
          { team := { abbreviation := "SDSU", location := "South Dakota State",
                      shortDisplayName := "Jackrabbits" }
            homeAway := "away", score := "14" } }
    status := { type := { id := "3" }, period := 4, displayClock := "0:00" } }

/-- Concrete delayed game (raw status id "7") and rain-delayed game (raw
status id "17"). -/
def delayedGame : Game :=
  { competition :=
      { date := 0
        competitor0 :=
          { team := { abbreviation := "CHI", location := "Chicago",
                      shortDisplayName := "Bulls" }
            homeAway := "home", score := "55" }
        competitor1 :=
          { team := { abbreviation := "MIA", location := "Miami",
                      shortDisplayName := "Heat" }
            homeAway := "away", score := "60" } }
    status := { type := { id := "7" }, period := 2, displayClock := "5:00" } }

/-- Variant of delayedGame with raw status id "17". -/
def rainDelayedGame : Game :=
  { delayedGame with status := { delayedGame.status with type := { id := "17" } } }

/-- Concrete NCAAF game whose first-listed competitor is flagged away and
whose second-listed competitor is the SDSU that triggers the override. -/
def awayFirstSdsuGame : Game :=
  { competition :=
      { date := 0
        competitor0 :=
          { team := { abbreviation := "UND", location := "North Dakota",
                      shortDisplayName := "Fighting Hawks" }
            homeAway := "away", score := "3" }
        competitor1 :=
          { team := { abbreviation := "SDSU", location := "South Dakota State",
                      shortDisplayName := "Jackrabbits" }
            homeAway := "home", score := "31" } }
    status := { type := { id := "1" }, period := 1, displayClock := "" } }

/-- Concrete NBA game whose first-listed competitor is flagged away. -/
def awayFirstNbaGame : Game :=
  { competition :=
      { date := 0
        competitor0 :=
          { team := { abbreviation := "LAL", location := "Los Angeles",
                      shortDisplayName := "Lakers" }
            homeAway := "away", score := "99" }
        competitor1 :=
          { team := { abbreviation := "BOS", location := "Boston",
                      shortDisplayName := "Celtics" }
            homeAway := "home", score := "101" } }
    status := { type := { id := "2" }, period := 4, displayClock := "1:23" } }

/-- Request construction as the specification's error clause demands it: fail
fast with an UnsupportedLeagueError instead of emitting a URL when the league
has no path segment.  Spec-side definition, compared against the code-side
getScoresUrl. -/
def buildRequestURL_spec (league dateStr : String) : Except String String :=
  match getLeaguePath league with
  | some p => Except.ok ("http://site.api.espn.com/apis/site/v2/sports/" ++ p ++
      "/scoreboard?dates=" ++ dateStr ++ "&limit=200")
  | none => Except.error "UnsupportedLeagueError"

/-- Concrete NCAAF game whose home competitor is the SDSU that triggers the
override, used for the input-mutation counterexample. -/
def sdsuFilterGame : Game :=
  { competition :=
      { date := 0
        competitor0 :=
          { team := { abbreviation := "SDSU", location := "South Dakota State",
                      shortDisplayName := "Jackrabbits" }
            homeAway := "home", score := "28" }
        competitor1 :=
          { team := { abbreviation := "UND", location := "North Dakota",
                      shortDisplayName := "Fighting Hawks" }
            homeAway := "away", score := "10" } }
    status := { type := { id := "2" }, period := 3, displayClock := "10:00" } }

/-- Concrete NCAAF game whose visiting competitor is the South Dakota State
SDSU (override applies). -/
def tieSdStateGame : Game :=
  { competition :=
      { date := 100
        competitor0 :=
          { team := { abbreviation := "MON", location := "Montana",
                      shortDisplayName := "Grizzlies" }
            homeAway := "home", score := "0" }
        competitor1 :=
          { team := { abbreviation := "SDSU", location := "South Dakota State",
                      shortDisplayName := "Jackrabbits" }
            homeAway := "away", score := "0" } }
    status := { type := { id := "1" }, period := 0, displayClock := "" } }

/-- Concrete NCAAF game at the same start time whose visiting competitor is
the San Diego State SDSU (override does not apply). -/
def tieSanDiegoGame : Game :=
  { competition :=
      { date := 100
        competitor0 :=
          { team := { abbreviation := "HAW", location := "Hawaii",
                      shortDisplayName := "Rainbow Warriors" }
            homeAway := "home", score := "0" }
        competitor1 :=
          { team := { abbreviation := "SDSU", location := "San Diego State",
                      shortDisplayName := "Aztecs" }
            homeAway := "away", score := "0" } }
    status := { type := { id := "1" }, period := 0, displayClock := "" } }

/-- Concrete NBA game the SDSU override leaves untouched. -/
def plainNbaGame : Game :=
  { competition :=
      { date := 42
        competitor0 :=
          { team := { abbreviation := "GSW", location := "Golden State",
                      shortDisplayName := "Warriors" }
            homeAway := "home", score := "110" }
        competitor1 :=
          { team := { abbreviation := "PHX", location := "Phoenix",
                      shortDisplayName := "Suns" }
            homeAway := "away", score := "108" } }
    status := { type := { id := "3" }, period := 4, displayClock := "0:00" } }


theorem getOrdinal_eq_spec (p : Nat) :
    getOrdinal p =
      toString p ++ "<sup>" ++ upperString (englishOrdinalSuffix p) ++ "</sup>" := by
  simp only [getOrdinal, englishOrdinalSuffix]
  split_ifs <;> simp only [String.append_assoc] <;> congr 1

theorem statusFor_ne_nil (fmt : Int → String) (league : String) (g : Game) :
    (statusFor fmt league g).2.1 ≠ [] := by
  unfold statusFor
  split <;> simp

/-- C6: with a non-null team filter, the retained games are exactly the input
games in which at least one of the two competitors' abbreviations is a member
of the filter list; with a null filter every input game is retained. -/
theorem c6_filter_exact (data : ScoreData) (ts : List String) :
    (∀ g : Game, g ∈ filteredGames data (some ts) ↔
      (g ∈ data.events ∧
        (g.competition.competitor0.team.abbreviation ∈ ts ∨
         g.competition.competitor1.team.abbreviation ∈ ts))) ∧
    filteredGames data none = data.events := by
  refine ⟨fun g => ?_, rfl⟩
  simp [filteredGames, passesFilter, List.mem_filter, and_comm]

/-- C9: on the supported leagues NCAAF, NBA and NCAAM, getPeriod maps period 5
to "OT", periods above 5 to "(p-4)OT", and periods 1 to 4 to the English
ordinal label produced by getOrdinal; every unsupported league always gets the
ordinal label; getOrdinal renders the English ordinal suffix rule in uppercase
superscript markup, which the claim permits. -/
theorem c9_getPeriod_spec :
    (∀ l : String, ∀ p : Nat, (l = "NCAAF" ∨ l = "NBA" ∨ l = "NCAAM") →
      (p = 5 → getPeriod l p = "OT") ∧
      (5 < p → getPeriod l p = toString (p - 4) ++ "OT") ∧
      (1 ≤ p → p ≤ 4 → getPeriod l p = getOrdinal p)) ∧
    (∀ l : String, ∀ p : Nat, l ≠ "NCAAF" → l ≠ "NBA" → l ≠ "NCAAM" →
      getPeriod l p = getOrdinal p) ∧
    (∀ p : Nat, getOrdinal p =
      toString p ++ "<sup>" ++ upperString (englishOrdinalSuffix p) ++ "</sup>") ∧
    getPeriod "NBA" 5 = "OT" ∧ getPeriod "NBA" 6 = "2OT" ∧
    getPeriod "NBA" 3 = "3<sup>RD</sup>" := by
  refine ⟨?_, ?_, getOrdinal_eq_spec, by decide, by decide, by decide⟩
  · rintro l p (rfl | rfl | rfl) <;>
      refine ⟨fun h5 => by subst h5; rfl, fun hgt => ?_, fun h1 h4 => ?_⟩ <;>
      simp only [getPeriod] <;> split_ifs <;>
      simp_all <;> omega
  · intro l p h1 h2 h3
    simp [getPeriod, h1, h2, h3]

/-- C8: a game with raw status id "3" is emitted with gameState FINAL and the
single status string "Final" followed by the getFinalOT suffix; getFinalOT
yields " (OT)" at period 5 and " ((p-4)OT)" above 5 on the supported leagues
and the empty string at periods up to 4 or on unsupported leagues; in
particular id "3", period 6, league NBA yields "Final (2OT)". -/
theorem c8_final_status (fmt : Int → String) (league : String) (g : Game)
    (h3 : g.status.type.id = "3") :
    (formatGame fmt league g).gameMode = FINAL ∧
    (formatGame fmt league g).status =
      ["Final" ++ getFinalOT league g.status.period] ∧
    (∀ l : String, ∀ p : Nat, (l = "NCAAF" ∨ l = "NBA" ∨ l = "NCAAM") →
      (p = 5 → getFinalOT l p = " (OT)") ∧
      (5 < p → getFinalOT l p = " (" ++ toString (p - 4) ++ "OT)") ∧
      (p ≤ 4 → getFinalOT l p = "")) ∧
    (∀ l : String, ∀ p : Nat, l ≠ "NCAAF" → l ≠ "NBA" → l ≠ "NCAAM" →
      getFinalOT l p = "") ∧
    (league = "NBA" → g.status.period = 6 →
      (formatGame fmt league g).status = ["Final (2OT)"]) := by
  refine ⟨?_, ?_, ?_, ?_, ?_⟩
  · simp [formatGame, statusFor, h3, FINAL]
  · simp [formatGame, statusFor, h3]
  · rintro l p (rfl | rfl | rfl) <;>
      refine ⟨fun h5 => by subst h5; rfl, fun hgt => ?_, fun h4 => ?_⟩ <;>
      simp only [getFinalOT] <;> split_ifs <;>
      simp_all <;> omega
  · intro l p h1 h2 h3
    simp [getFinalOT, h1, h2, h3]
  · rintro rfl hp
    simp [formatGame, statusFor, h3, hp]
    rfl

theorem c8_final_status_witness :
    (formatGame (fun _ => "") "NBA" finalNbaGame).gameMode = FINAL ∧
    (formatGame (fun _ => "") "NBA" finalNbaGame).status = ["Final (2OT)"] :=
  ⟨(c8_final_status (fun _ => "") "NBA" finalNbaGame rfl).1,
   (c8_final_status (fun _ => "") "NBA" finalNbaGame rfl).2.2.2.2 rfl rfl⟩

theorem c9_getPeriod_spec_witness :
    getPeriod "NCAAF" 7 = "3OT" ∧ getPeriod "XFL" 9 = getOrdinal 9 :=
  ⟨(c9_getPeriod_spec.1 "NCAAF" 7 (Or.inl rfl)).2.1 (by omega),
   c9_getPeriod_spec.2.1 "XFL" 9 (by decide) (by decide) (by decide)⟩

/-- C10: every game surviving the filter is emitted with a non-empty status
list, whatever its raw status id: every branch of the status switch, the
default branch included, pushes at least one status string. -/
theorem c10_status_nonempty (fmt : Int → String) (league : String)
    (data : ScoreData) (teams : Option (List String)) :
    ∀ fg ∈ formatGames fmt league data teams, fg.status ≠ [] := by
  intro fg hfg
  simp only [formatGames, formatScores, List.mem_map] at hfg
  obtain ⟨g, -, rfl⟩ := hfg
  simpa [formatGame] using statusFor_ne_nil fmt league g

theorem c10_status_nonempty_witness :
    (formatGame (fun _ => "7:00 pm") "NBA" unknownStatusGame).status ≠ [] :=
  c10_status_nonempty (fun _ => "7:00 pm") "NBA" { events := [unknownStatusGame] }
    none (formatGame (fun _ => "7:00 pm") "NBA" unknownStatusGame)
    (by simp [formatGames, formatScores, sortedGames, filteredGames])

/-- C1 counterexample: in an NCAAF game where both the home and the visiting
competitor satisfy the SDSU condition, only the home abbreviation is emitted
as "SDSU " while the visiting abbreviation stays "SDSU", so the override is
not applied independently to both sides. -/
theorem c1_counterexample :
    (formatGame (fun _ => "") "NCAAF" sdsuBothGame).hTeam = "SDSU " ∧
    (formatGame (fun _ => "") "NCAAF" sdsuBothGame).vTeam = "SDSU" ∧
    ("SDSU" : String) ≠ "SDSU " :=
  ⟨rfl, rfl, by decide⟩

/-- C1 amended: the SDSU override is applied with home-side priority, not
independently: the home abbreviation is rewritten whenever the home side
matches; the visiting abbreviation is rewritten only when the home side does
not match; when neither matches both abbreviations are the raw ones.  In
particular when both sides match only the home abbreviation is rewritten. -/
theorem c1_amended (fmt : Int → String) (league : String) (g : Game) :
    (sdsuMatch league (homeVisitor g).1 = true →
      (formatGame fmt league g).hTeam = "SDSU " ∧
      (formatGame fmt league g).vTeam = (homeVisitor g).2.team.abbreviation) ∧
    (sdsuMatch league (homeVisitor g).1 = false →
      sdsuMatch league (homeVisitor g).2 = true →
      (formatGame fmt league g).hTeam = (homeVisitor g).1.team.abbreviation ∧
      (formatGame fmt league g).vTeam = "SDSU ") ∧
    (sdsuMatch league (homeVisitor g).1 = false →
      sdsuMatch league (homeVisitor g).2 = false →
      (formatGame fmt league g).hTeam = (homeVisitor g).1.team.abbreviation ∧
      (formatGame fmt league g).vTeam = (homeVisitor g).2.team.abbreviation) := by
  refine ⟨fun h1 => ?_, fun h1 h2 => ?_, fun h1 h2 => ?_⟩
  · simp [formatGame, applyOverrides, h1]
  · simp [formatGame, applyOverrides, h1, h2]
  · simp [formatGame, applyOverrides, h1, h2]

theorem c1_amended_witness :
    (formatGame (fun _ => "") "NCAAF" sdsuBothGame).hTeam = "SDSU " ∧
    (formatGame (fun _ => "") "NCAAF" sdsuBothGame).vTeam = "SDSU" := by
  have h := (c1_amended (fun _ => "") "NCAAF" sdsuBothGame).1 (by decide)
  exact ⟨h.1, by rw [h.2]; rfl⟩

/-- C2: evaluation of the code at the failing inputs.  For raw status ids "7"
and "17" the emitted game has gameState LIVE and status text "Delay", but its
classes list is empty: the source's statement classes.push["delay"] indexes
into the push function instead of calling it, so the "delay" tag the claim
requires is never appended. -/
theorem c2_delay_eval :
    (formatGame (fun _ => "") "NBA" delayedGame).gameMode = LIVE ∧
    (formatGame (fun _ => "") "NBA" delayedGame).status = ["Delay"] ∧
    (formatGame (fun _ => "") "NBA" delayedGame).classes = [] ∧
    (formatGame (fun _ => "") "NBA" rainDelayedGame).gameMode = LIVE ∧
    (formatGame (fun _ => "") "NBA" rainDelayedGame).status = ["Delay"] ∧
    (formatGame (fun _ => "") "NBA" rainDelayedGame).classes = [] :=
  ⟨rfl, rfl, rfl, rfl, rfl, rfl⟩

/-- C7 counterexample: with the first-listed competitor flagged away, the home
side is indeed taken from the second-listed competitor, but the emitted hTeam
is the overridden "SDSU ", not that competitor's raw abbreviation "SDSU". -/
theorem c7_counterexample :
    awayFirstSdsuGame.competition.competitor0.homeAway = "away" ∧
    awayFirstSdsuGame.competition.competitor1.team.abbreviation = "SDSU" ∧
    (formatGame (fun _ => "") "NCAAF" awayFirstSdsuGame).hTeam = "SDSU " ∧
    ("SDSU " : String) ≠ "SDSU" :=
  ⟨rfl, rfl, rfl, by decide⟩

/-- C7 amended: the home competitor is determined solely by the homeAway flag:
whenever the first-listed competitor is flagged away, the emitted home side is
the second-listed competitor and the visiting side the first-listed one, their
abbreviations taken after the NCAAF SDSU override; whenever the override
matches neither side these are exactly the raw abbreviations. -/
theorem c7_amended (fmt : Int → String) (league : String) (g : Game)
    (ha : g.competition.competitor0.homeAway = "away") :
    (formatGame fmt league g).hTeam =
      (applyOverrides league
        (g.competition.competitor1, g.competition.competitor0)).1.team.abbreviation ∧
    (formatGame fmt league g).vTeam =
      (applyOverrides league
        (g.competition.competitor1, g.competition.competitor0)).2.team.abbreviation ∧
    (sdsuMatch league g.competition.competitor1 = false →
      sdsuMatch league g.competition.competitor0 = false →
      (formatGame fmt league g).hTeam =
        g.competition.competitor1.team.abbreviation ∧
      (formatGame fmt league g).vTeam =
        g.competition.competitor0.team.abbreviation) := by
  have hv : homeVisitor g = (g.competition.competitor1, g.competition.competitor0) := by
    simp [homeVisitor, ha]
  refine ⟨?_, ?_, fun h1 h2 => ?_⟩
  · simp [formatGame, hv]
  · simp [formatGame, hv]
  · simp [formatGame, hv, applyOverrides, h1, h2]

theorem c7_amended_witness :
    (formatGame (fun _ => "") "NBA" awayFirstNbaGame).hTeam = "BOS" ∧
    (formatGame (fun _ => "") "NBA" awayFirstNbaGame).vTeam = "LAL" := by
  have h := c7_amended (fun _ => "") "NBA" awayFirstNbaGame rfl
  exact ⟨by rw [(h.2.2 rfl rfl).1]; rfl, by rw [(h.2.2 rfl rfl).2]; rfl⟩

/-- C4 counterexample: for the unsupported league "NHL" the code does not fail
fast: getLeaguePath returns null and getScores still emits a request URL, with
the text "null" interpolated as the path segment, where the spec-side
construction signals UnsupportedLeagueError. -/
theorem c4_counterexample :
    getLeaguePath "NHL" = none ∧
    getScoresUrl "NHL" "20251012" =
      "http://site.api.espn.com/apis/site/v2/sports/null/scoreboard?dates=20251012&limit=200" ∧
    buildRequestURL_spec "NHL" "20251012" =
      Except.error "UnsupportedLeagueError" :=
  ⟨rfl, rfl, rfl⟩

/-- C4 amended: for every league outside NCAAF, NBA and NCAAM, getLeaguePath
yields no path segment and the code emits a malformed URL embedding the text
"null" instead of signalling an error; the fail-fast behaviour the claim
demands exists only in the spec-side construction. -/
theorem c4_amended (league dateStr : String)
    (h : league ∉ (["NCAAF", "NBA", "NCAAM"] : List String)) :
    getLeaguePath league = none ∧
    getScoresUrl league dateStr =
      "http://site.api.espn.com/apis/site/v2/sports/" ++ "null" ++
        "/scoreboard?dates=" ++ dateStr ++ "&limit=200" ∧
    buildRequestURL_spec league dateStr = Except.error "UnsupportedLeagueError" := by
  simp only [List.mem_cons, List.not_mem_nil, or_false, not_or] at h
  obtain ⟨h1, h2, h3⟩ := h
  have hp : getLeaguePath league = none := by simp [getLeaguePath, h1, h2, h3]
  refine ⟨hp, ?_, ?_⟩
  · simp [getScoresUrl, hp, jsStringOfNullable]
  · simp [buildRequestURL_spec, hp]

theorem c4_amended_witness :
    getLeaguePath "XFL" = none ∧
    getScoresUrl "XFL" "20260101" =
      "http://site.api.espn.com/apis/site/v2/sports/" ++ "null" ++
        "/scoreboard?dates=" ++ "20260101" ++ "&limit=200" ∧
    buildRequestURL_spec "XFL" "20260101" = Except.error "UnsupportedLeagueError" :=
  c4_amended "XFL" "20260101" (by decide)

theorem gamesLe_iff (a b : Game) :
    gamesLe a b = true ↔
      (a.competition.date < b.competition.date ∨
        (a.competition.date = b.competition.date ∧ awayAbbr a ≤ awayAbbr b)) := by
  unfold gamesLe cmpGames
  split_ifs with h1 h2 h3 h4 <;> simp only [decide_eq_true_eq]
  · simp only [show ((-1 : Int) ≤ 0) from by norm_num, true_iff]
    exact Or.inl h1
  · simp only [show ¬((1 : Int) ≤ 0) from by norm_num, false_iff]
    rintro (h | ⟨he, -⟩) <;> omega
  · simp only [show ((-1 : Int) ≤ 0) from by norm_num, true_iff]
    exact Or.inr ⟨by omega, le_of_lt h3⟩
  · simp only [show ¬((1 : Int) ≤ 0) from by norm_num, false_iff]
    rintro (h | ⟨-, hle⟩)
    · omega
    · exact absurd hle (not_le.mpr h4)
  · simp only [show ((0 : Int) ≤ 0) from by norm_num, true_iff]
    exact Or.inr ⟨by omega, not_lt.mp h4⟩

theorem gamesLe_total (a b : Game) : gamesLe a b || gamesLe b a := by
  rw [Bool.or_eq_true, gamesLe_iff, gamesLe_iff]
  rcases lt_trichotomy a.competition.date b.competition.date with h | h | h
  · exact Or.inl (Or.inl h)
  · rcases le_total (awayAbbr a) (awayAbbr b) with hs | hs
    · exact Or.inl (Or.inr ⟨h, hs⟩)
    · exact Or.inr (Or.inr ⟨h.symm, hs⟩)
  · exact Or.inr (Or.inl h)

theorem gamesLe_trans (a b c : Game) :
    gamesLe a b → gamesLe b c → gamesLe a c := by
  intro hab hbc
  rw [gamesLe_iff] at hab hbc ⊢
  rcases hab with h | ⟨e1, s1⟩ <;> rcases hbc with h2 | ⟨e2, s2⟩
  · exact Or.inl (lt_trans h h2)
  · exact Or.inl (e2 ▸ h)
  · exact Or.inl (e1 ▸ h2)
  · exact Or.inr ⟨e1.trans e2, le_trans s1 s2⟩

theorem formatScores_fst (fmt : Int → String) (league : String)
    (data : ScoreData) (teams : Option (List String)) :
    (formatScores fmt league data teams).1 =
      ((filteredGames data teams).mergeSort gamesLe).map (formatGame fmt league) :=
  rfl

/-- C5 counterexample: two NCAAF games with equal start times and equal raw
visiting abbreviation "SDSU"; the stable sort keeps their input order, the
SDSU override then rewrites only the South Dakota State one, and the emitted
visiting abbreviations ["SDSU ", "SDSU"] are not in ascending order. -/
theorem c5_counterexample :
    (formatGames (fun _ => "") "NCAAF"
        { events := [tieSdStateGame, tieSanDiegoGame] } none).map
      (fun fg => fg.vTeam) = ["SDSU ", "SDSU"] ∧
    tieSdStateGame.competition.date = tieSanDiegoGame.competition.date ∧
    ¬ (("SDSU " : String) ≤ "SDSU") := by
  refine ⟨?_, rfl, by simp only [String.le_iff_toList_le]; decide⟩
  have hle : gamesLe tieSdStateGame tieSanDiegoGame = true := by
    simp [gamesLe, cmpGames, awayAbbr, tieSdStateGame, tieSanDiegoGame]
  have hs : ([tieSdStateGame, tieSanDiegoGame] : List Game).mergeSort gamesLe =
      [tieSdStateGame, tieSanDiegoGame] :=
    List.mergeSort_of_sorted (by simp [List.pairwise_cons, hle])
  have hf : filteredGames { events := [tieSdStateGame, tieSanDiegoGame] } none =
      [tieSdStateGame, tieSanDiegoGame] := rfl
  unfold formatGames
  rw [formatScores_fst, hf, hs]
  rfl

/-- C5 amended: the output of formatScores is the image, in order, of the
filtered games sorted by start time ascending with ties broken by the raw
(pre-override) visiting abbreviation ascending; the emitted vTeam strings can
deviate from this order only where the SDSU override rewrites a tied visiting
abbreviation. -/
theorem c5_amended (fmt : Int → String) (league : String) (data : ScoreData)
    (teams : Option (List String)) :
    List.Pairwise (fun a b =>
      a.competition.date < b.competition.date ∨
        (a.competition.date = b.competition.date ∧ awayAbbr a ≤ awayAbbr b))
      (sortedGames data teams) ∧
    formatGames fmt league data teams =
      (sortedGames data teams).map (formatGame fmt league) := by
  refine ⟨?_, rfl⟩
  have h := List.sorted_mergeSort gamesLe_trans gamesLe_total
    (filteredGames data teams)
  exact h.imp (fun hab => (gamesLe_iff _ _).1 hab)

/-- C3 counterexample: formatScores mutates its input.  On an NCAAF game whose
home side is the South Dakota State SDSU, with team filter ["SDSU"], the first
call returns one game and rewrites the stored abbreviation to "SDSU "; the
second sequential call on the same data then filters the game out and returns
the empty list. -/
theorem c3_counterexample :
    (formatScores (fun _ => "") "NCAAF"
        (formatScores (fun _ => "") "NCAAF" { events := [sdsuFilterGame] }
          (some ["SDSU"])).2 (some ["SDSU"])).1 = [] ∧
    (formatScores (fun _ => "") "NCAAF" { events := [sdsuFilterGame] }
        (some ["SDSU"])).1 ≠ [] := by
  constructor
  · have hf : filteredGames
        (formatScores (fun _ => "") "NCAAF" { events := [sdsuFilterGame] }
          (some ["SDSU"])).2 (some ["SDSU"]) = [] := rfl
    rw [formatScores_fst, hf, List.mergeSort_nil, List.map_nil]
  · have hf : filteredGames { events := [sdsuFilterGame] } (some ["SDSU"]) =
        [sdsuFilterGame] := rfl
    rw [formatScores_fst, hf, List.mergeSort_singleton]
    simp

/-- C3 amended: formatScores is deterministic, but it mutates its input in
place, so repeatability holds only when the SDSU override rewrites no input
game: under that hypothesis a second sequential invocation on the same data
returns the identical output list (with a null filter the first call also
sorts data.events in place, which is harmless because sorting is idempotent). -/
theorem c3_amended (fmt : Int → String) (league : String) (data : ScoreData)
    (teams : Option (List String))
    (hno : ∀ g ∈ data.events, mutateGame league g = g) :
    (formatScores fmt league (formatScores fmt league data teams).2 teams).1 =
      (formatScores fmt league data teams).1 := by
  cases teams with
  | some ts =>
    have he : (formatScores fmt league data (some ts)).2 = data := by
      simp only [formatScores]
      cases data with
      | mk events =>
        simp only [ScoreData.mk.injEq]
        refine (List.map_congr_left fun g hg => ?_).trans (List.map_id _)
        split_ifs with hp
        · exact hno g hg
        · rfl
    rw [he]
  | none =>
    have hms : ∀ g ∈ sortedGames data none, mutateGame league g = g := by
      intro g hg
      refine hno g ?_
      simpa [sortedGames, filteredGames] using List.mem_mergeSort.mp hg
    have he : (formatScores fmt league data none).2 =
        { events := sortedGames data none } := by
      simp only [formatScores, ScoreData.mk.injEq]
      exact (List.map_congr_left hms).trans (List.map_id _)
    rw [he]
    simp only [formatScores, sortedGames, filteredGames]
    rw [List.mergeSort_of_sorted
      (List.sorted_mergeSort gamesLe_trans gamesLe_total data.events)]

theorem c3_amended_witness :
    (formatScores (fun _ => "") "NBA"
        (formatScores (fun _ => "") "NBA" { events := [plainNbaGame] } none).2
        none).1 =
      (formatScores (fun _ => "") "NBA" { events := [plainNbaGame] } none).1 :=
  c3_amended (fun _ => "") "NBA" { events := [plainNbaGame] } none (by decide)
